import Mathlib

/-!
Verification of the pulsar task-queue application
(src/pulsar/apps/tasks/__init__.py) against its specification.

The file embeds, as executable Lean definitions, the pieces of the source
that the claims are about: the CPUboundServer request machinery
(can_poll, put, on_request), the TaskQueue command handlers
(addtask, addtask_noack, wait_for_task), the monitor tick check
(monitor_task) and the default configuration settings.  Parts of the
repository that the claims depend on but that are not present in the
sources (scheduler.py, task.py, states.py) are modelled from the
specification; each such definition carries a doc comment starting with
"Modelled from the spec:".
-/

namespace Pulsar

/-! ### Task statuses

The module docstring of src/pulsar/apps/tasks/__init__.py lists the
possible values of `Task.status`; states.py itself is not in the sources. -/

/-- The status strings a task record can carry, per the module docstring
(PENDING, RETRY, RECEIVED, STARTED, REVOKED, UNKNOWN, FAILURE, SUCCESS). -/
inductive Status where
  | PENDING
  | RETRY
  | RECEIVED
  | STARTED
  | REVOKED
  | UNKNOWN
  | FAILURE
  | SUCCESS
  deriving DecidableEq, Repr

/-- Modelled from the spec: READY_STATES, the set of states for which a task
has finished: REVOKED, FAILURE and SUCCESS (states.py is absent from the
sources; the module docstring of the main file gives the same set). -/
def READY_STATES : List Status := [.REVOKED, .FAILURE, .SUCCESS]

/-- Modelled from the spec: FULL_RUN_STATES, the set of states for which a
task has run: FAILURE and SUCCESS. -/
def FULL_RUN_STATES : List Status := [.FAILURE, .SUCCESS]

/-- A task record, reduced to the attributes the claims mention: its id and
its status.  The full record (args, timestamps, result, ...) lives in
task.py, which is absent from the sources. -/
structure Task where
  id : Nat
  status : Status
  deriving DecidableEq, Repr

/-! ### The CPUboundServer state

`CPUboundServer.__init__` sets `received = 0` and
`concurrent_requests = set()`; `worker_start` sets the worker-local flag
`local.can_poll = True`; `cfg.backlog` comes from the configuration.
A Python `set` of task records is embedded as a duplicate-free list:
`add` appends when absent, `discard` filters the element out. -/

/-- The mutable per-worker state of a CPUboundServer that the claims
inspect: the `received` counter, the `concurrent_requests` set, the
worker-local `can_poll` flag and the configured `backlog`. -/
structure ServerState where
  received : Nat
  concurrent_requests : List Task
  can_poll_flag : Bool
  backlog : Nat
  deriving DecidableEq, Repr

/-- Python `set.add`: insert the element unless already present. -/
def setAdd (s : List Task) (t : Task) : List Task :=
  if t ∈ s then s else s ++ [t]

/-- Python `set.discard`: remove the element if present (no error if not). -/
def setDiscard (s : List Task) (t : Task) : List Task :=
  s.filter (fun x => x ≠ t)

/-- CPUboundServer.can_poll:
`if self.local.can_poll: return len(self.concurrent_requests) <= self.cfg.backlog`.
When the worker-local flag is unset the function falls off the end and
returns None, embedded as `none`; otherwise it returns the boolean
comparison, embedded as `some`. -/
def can_poll (st : ServerState) : Option Bool :=
  if st.can_poll_flag then
    some (decide (st.concurrent_requests.length ≤ st.backlog))
  else
    none

/-- CPUboundServer.put: `self.ioqueue.put(('request', request))`.
The ioqueue is embedded as the list of messages it holds, each message a
tag/payload pair exactly as the Python tuple. -/
def put {α : Type} (ioqueue : List (String × α)) (request : α) :
    List (String × α) :=
  ioqueue ++ [("request", request)]

/-! ### on_request

`CPUboundServer.on_request` (decorated with maybe_async_deco) runs

    request = self.request_instance(request)
    if request is not None:
        self.received += 1
        self.concurrent_requests.add(request)
        try:
            yield request.start(worker)
        finally:
            self.concurrent_requests.discard(request)

For the TaskQueue subclass, `request_instance` is
`self.scheduler.get_task(request)`.  scheduler.py is not in the sources,
so the fetch is modelled from the spec.  `request.start(worker)` lives in
task.py, also absent; on_request only needs its outcome, which we take as
a parameter: normal return or a raised exception. -/

/-- Modelled from the spec: Scheduler.get_task, the store operation
get(id) -> record | None of spec section 4.2 (scheduler.py is absent from
the sources).  The store contents are a parameter; the fetch returns the
record whatever its status, or None when the id is unknown. -/
def get_task (store : Nat → Option Task) (id : Nat) : Option Task :=
  store id

/-- The outcome of `request.start(worker)`: a normal return or a raised
exception (task.py is absent; on_request only observes which of the two
happened). -/
inductive StartOutcome where
  | normal
  | raised
  deriving DecidableEq, Repr

/-- What one on_request invocation did: the server state it left behind,
whether `request.start` was invoked, and the outcome it propagates. -/
structure OnRequestResult where
  final : ServerState
  started : Bool
  outcome : StartOutcome
  deriving DecidableEq, Repr

/-- TaskQueue.on_request: fetch the record via request_instance
(= scheduler.get_task); when None do nothing, otherwise increment
`received`, add the record to `concurrent_requests`, run
`request.start(worker)` and, in a finally block, discard the record from
`concurrent_requests` whether start returned or raised. -/
def on_request (st : ServerState) (store : Nat → Option Task)
    (start : Task → StartOutcome) (request : Nat) : OnRequestResult :=
  match get_task store request with
  | none => ⟨st, false, .normal⟩
  | some t =>
      let st1 : ServerState :=
        { st with received := st.received + 1,
                  concurrent_requests := setAdd st.concurrent_requests t }
      let out := start t
      let st2 : ServerState :=
        { st1 with concurrent_requests := setDiscard st1.concurrent_requests t }
      ⟨st2, true, out⟩

/-! ### Claims C3, C10: can_poll -/

/-- Claim C3: for every worker state in which polling has been enabled,
can_poll returns a true value if and only if the size of the
concurrent_requests set is at most cfg.backlog; in particular the worker
refuses new work whenever the number of in-flight requests exceeds
backlog. -/
theorem can_poll_iff_within_backlog (st : ServerState)
    (h : st.can_poll_flag = true) :
    (can_poll st = some true ↔
      st.concurrent_requests.length ≤ st.backlog) ∧
    (st.backlog < st.concurrent_requests.length →
      can_poll st = some false) := by
  constructor
  · unfold can_poll
    rw [h]
    simp
  · intro hgt
    unfold can_poll
    rw [h]
    simp [Nat.not_le.mpr hgt]

/-- Witness for C3 at a concrete state: with the flag on, one in-flight
request and backlog 1, can_poll answers true. -/
theorem can_poll_iff_within_backlog_witness :
    can_poll ⟨0, [⟨5, .STARTED⟩], true, 1⟩ = some true :=
  ((can_poll_iff_within_backlog ⟨0, [⟨5, .STARTED⟩], true, 1⟩ rfl).1).mpr
    (by decide)

/-- Claim C10: before worker_start has set the worker-local can_poll flag,
can_poll returns a falsy value (None) regardless of the backlog or the
contents of concurrent_requests. -/
theorem can_poll_none_before_worker_start (st : ServerState)
    (h : st.can_poll_flag = false) :
    can_poll st = none := by
  unfold can_poll
  rw [h]
  simp

/-- Witness for C10 at a concrete state: with the flag unset, an empty
concurrent set and a large backlog, can_poll still returns None. -/
theorem can_poll_none_before_worker_start_witness :
    can_poll ⟨0, [], false, 100⟩ = none :=
  can_poll_none_before_worker_start ⟨0, [], false, 100⟩ rfl

/-! ### Claims C1, C9: on_request -/

/-- Counterexample to claim C1: on_request does not drop a record that is
already terminal.  With an empty initial state and a store holding task 7
in the terminal state SUCCESS, on_request increments `received` to 1 and
invokes start, although the claim says it should do neither. -/
theorem on_request_processes_terminal_record :
    Task.status ⟨7, .SUCCESS⟩ ∈ READY_STATES ∧
    (on_request ⟨0, [], true, 1⟩ (fun _ => some ⟨7, .SUCCESS⟩)
        (fun _ => .normal) 7).final.received = 1 ∧
    (on_request ⟨0, [], true, 1⟩ (fun _ => some ⟨7, .SUCCESS⟩)
        (fun _ => .normal) 7).started = true := by
  decide

/-- Claim C1 as amended: on_request drops a request silently exactly when
the fetch (scheduler.get_task) returns None; for every request whose fetch
returns a record, terminal or not, it increments `received`, adds the
record to `concurrent_requests` (discarding it again after start) and
starts the request. -/
theorem on_request_drops_iff_fetch_none (st : ServerState)
    (store : Nat → Option Task) (start : Task → StartOutcome) (r : Nat) :
    (store r = none → on_request st store start r = ⟨st, false, .normal⟩) ∧
    (∀ t : Task, store r = some t →
      (on_request st store start r).final.received = st.received + 1 ∧
      (on_request st store start r).started = true ∧
      (on_request st store start r).final.concurrent_requests
        = setDiscard (setAdd st.concurrent_requests t) t ∧
      (on_request st store start r).outcome = start t) := by
  constructor
  · intro h
    unfold on_request get_task
    rw [h]
  · intro t h
    unfold on_request get_task
    rw [h]
    exact ⟨rfl, rfl, rfl, rfl⟩

/-- Witness for the amended C1 at a concrete input: a store holding task 3
as PENDING makes on_request bump `received` from 0 to 1. -/
theorem on_request_drops_iff_fetch_none_witness :
    (on_request ⟨0, [], true, 1⟩ (fun _ => some ⟨3, .PENDING⟩)
        (fun _ => .normal) 3).final.received = 1 :=
  ((on_request_drops_iff_fetch_none ⟨0, [], true, 1⟩
      (fun _ => some ⟨3, .PENDING⟩) (fun _ => .normal) 3).2
    ⟨3, .PENDING⟩ rfl).1

/-- Counterexample to claim C9: when the fetched record is already a member
of `concurrent_requests` (a duplicate delivery while the first invocation
is still suspended in start), the finally block removes it, so the set
after the call differs from the set before it: here it shrinks from one
element to none. -/
theorem on_request_shrinks_concurrent_set :
    (on_request ⟨1, [⟨7, .STARTED⟩], true, 1⟩
        (fun _ => some ⟨7, .STARTED⟩) (fun _ => .normal) 7).final.concurrent_requests
      = [] ∧
    (⟨1, [⟨7, .STARTED⟩], true, 1⟩ : ServerState).concurrent_requests ≠ [] := by
  decide

/-- Claim C9 as amended: for every request accepted by on_request the
record is absent from `concurrent_requests` once start completes, whether
start returned normally or raised; and when the record was not already in
the set before the call, the set afterwards equals the set before. -/
theorem on_request_removes_from_concurrent (st : ServerState)
    (store : Nat → Option Task) (start : Task → StartOutcome) (r : Nat)
    (t : Task) (h : store r = some t) :
    t ∉ (on_request st store start r).final.concurrent_requests ∧
    (t ∉ st.concurrent_requests →
      (on_request st store start r).final.concurrent_requests
        = st.concurrent_requests) := by
  have hfin : (on_request st store start r).final.concurrent_requests
      = setDiscard (setAdd st.concurrent_requests t) t := by
    unfold on_request get_task
    rw [h]
  constructor
  · rw [hfin]
    unfold setDiscard
    intro hmem
    have := (List.mem_filter.mp hmem).2
    simp at this
  · intro hnotmem
    rw [hfin]
    unfold setAdd setDiscard
    rw [if_neg hnotmem]
    rw [List.filter_append]
    have h1 : st.concurrent_requests.filter (fun x => x ≠ t)
        = st.concurrent_requests := by
      apply List.filter_eq_self.mpr
      intro a ha
      simp
      intro heq
      exact hnotmem (heq ▸ ha)
    have h2 : [t].filter (fun x => x ≠ t) = [] := by simp
    rw [h1, h2, List.append_nil]

/-- Witness for the amended C9 at a concrete input: task 3 fetched into an
empty concurrent set is gone from the set after on_request. -/
theorem on_request_removes_from_concurrent_witness :
    Task.mk 3 .PENDING ∉
      (on_request ⟨0, [], true, 1⟩ (fun _ => some ⟨3, .PENDING⟩)
        (fun _ => .raised) 3).final.concurrent_requests :=
  (on_request_removes_from_concurrent ⟨0, [], true, 1⟩
    (fun _ => some ⟨3, .PENDING⟩) (fun _ => .raised) 3 ⟨3, .PENDING⟩ rfl).1

/-! ### Claim C7: put -/

/-- Claim C7: for every request r, CPUboundServer.put enqueues on the
ioqueue exactly the tuple ("request", r): the queue afterwards is the old
queue with that one message appended, and every message of the new queue
is either an old message or the tagged pair ("request", r). -/
theorem put_enqueues_request_tuple {α : Type} (ioqueue : List (String × α))
    (r : α) :
    put ioqueue r = ioqueue ++ [("request", r)] ∧
    ∀ m : String × α, m ∈ put ioqueue r → m ∈ ioqueue ∨ m = ("request", r) := by
  refine ⟨rfl, ?_⟩
  intro m hm
  unfold put at hm
  rcases List.mem_append.mp hm with h | h
  · exact Or.inl h
  · exact Or.inr (List.mem_singleton.mp h)

/-- Witness for C7 at a concrete input: the one message put places on an
empty queue is an old message or the tagged pair, here necessarily the
tagged pair ("request", 5). -/
theorem put_enqueues_request_tuple_witness :
    ("request", (5 : Nat)) ∈ ([] : List (String × Nat)) ∨
    (("request", (5 : Nat)) : String × Nat) = ("request", (5 : Nat)) :=
  (put_enqueues_request_tuple ([] : List (String × Nat)) 5).2
    ("request", 5) (by simp [put])

/-! ### Claim C2: addtask / addtask_noack

The two command handlers are

    def addtask(client, actor, caller, jobname, task_extra, *args, **kwargs):
        kwargs.pop('ack', None)
        return actor.app._addtask(actor, caller, jobname, task_extra, True,
                                  args, kwargs)

    def addtask_noack(client, actor, caller, jobname, task_extra, *args, **kwargs):
        kwargs.pop('ack', None)
        return actor.app._addtask(actor, caller, jobname, task_extra, False,
                                  args, kwargs)

and TaskQueue._addtask runs
`task = self.scheduler.queue_task(monitor, jobname, args, kwargs, **task_extra)`
returning `task` when ack is true and nothing otherwise.
scheduler.queue_task lives in scheduler.py, absent from the sources, so it
is a parameter here; what matters for the claim is which arguments it is
called with, so _addtask also returns the call it made.  Argument values
are an arbitrary type; kwargs and task_extra are keyed values. -/

/-- The arguments of one scheduler.queue_task invocation as made by
TaskQueue._addtask: jobname, positional args, keyed kwargs and the
task_extra dictionary splatted onto the call. -/
structure QueueTaskCall (α : Type) where
  jobname : String
  args : List α
  kwargs : List (String × α)
  task_extra : List (String × α)
  deriving DecidableEq, Repr

/-- Python `kwargs.pop('ack', None)` as it affects the dictionary: the key
"ack" is removed if present. -/
def pop_ack {α : Type} (kwargs : List (String × α)) : List (String × α) :=
  kwargs.filter (fun p => p.1 ≠ "ack")

/-- TaskQueue._addtask: call scheduler.queue_task with the given jobname,
args, kwargs and task_extra; return the created task when ack is true and
nothing when ack is false.  The first component records the queue_task
call that was made. -/
def _addtask {α : Type} (queue_task : QueueTaskCall α → Task)
    (call : QueueTaskCall α) (ack : Bool) : QueueTaskCall α × Option Task :=
  let task := queue_task call
  (call, if ack then some task else none)

/-- The addtask command handler: pop "ack" from kwargs and delegate to
_addtask with ack = true. -/
def addtask {α : Type} (queue_task : QueueTaskCall α → Task) (jobname : String)
    (task_extra : List (String × α)) (args : List α)
    (kwargs : List (String × α)) : QueueTaskCall α × Option Task :=
  _addtask queue_task ⟨jobname, args, pop_ack kwargs, task_extra⟩ true

/-- The addtask_noack command handler: pop "ack" from kwargs and delegate
to _addtask with ack = false. -/
def addtask_noack {α : Type} (queue_task : QueueTaskCall α → Task)
    (jobname : String) (task_extra : List (String × α)) (args : List α)
    (kwargs : List (String × α)) : QueueTaskCall α × Option Task :=
  _addtask queue_task ⟨jobname, args, pop_ack kwargs, task_extra⟩ false

/-- Claim C2: addtask and addtask_noack invoke the same task-creation path
(scheduler.queue_task through _addtask) with identical jobname, task_extra,
args and kwargs; the only behavioural difference is the ack flag: addtask
returns the created task record, addtask_noack returns nothing. -/
theorem addtask_noack_differs_only_in_ack {α : Type}
    (queue_task : QueueTaskCall α → Task) (jobname : String)
    (task_extra : List (String × α)) (args : List α)
    (kwargs : List (String × α)) :
    (addtask queue_task jobname task_extra args kwargs).1
      = (addtask_noack queue_task jobname task_extra args kwargs).1 ∧
    (addtask queue_task jobname task_extra args kwargs).2
      = some (queue_task ⟨jobname, args, pop_ack kwargs, task_extra⟩) ∧
    (addtask_noack queue_task jobname task_extra args kwargs).2 = none :=
  ⟨rfl, rfl, rfl⟩

/-! ### Claim C4: monitor_task

TaskQueue.monitor_task runs on every monitor event-loop iteration:

    s = self.scheduler
    if s:
        if s.next_run <= datetime.now():
            s.tick(monitor)

The scheduler object (scheduler.py is absent) is reduced to what the
check reads, its `next_run` timestamp; `self.local.scheduler` is None
until the handler installs it, embedded as an Option.  Timestamps are
integers; `datetime.now()` is the `now` parameter. -/

/-- The part of the Scheduler that TaskQueue.monitor_task inspects: its
next_run timestamp. -/
structure SchedulerHandle where
  next_run : Int
  deriving DecidableEq, Repr

/-- TaskQueue.monitor_task, returning whether it invoked Scheduler.tick on
this iteration: it does so exactly when the scheduler exists and
`s.next_run <= datetime.now()`. -/
def monitor_task (scheduler : Option SchedulerHandle) (now : Int) : Bool :=
  match scheduler with
  | none => false
  | some s => if s.next_run ≤ now then true else false

/-- Claim C4: on every monitor iteration, monitor_task invokes
Scheduler.tick if and only if a scheduler exists and its next_run is not
after the current time; when next_run lies in the future the tick is
skipped. -/
theorem monitor_task_ticks_iff_due (scheduler : Option SchedulerHandle)
    (now : Int) :
    (monitor_task scheduler now = true ↔
      ∃ s : SchedulerHandle, scheduler = some s ∧ s.next_run ≤ now) ∧
    (∀ s : SchedulerHandle, scheduler = some s → now < s.next_run →
      monitor_task scheduler now = false) := by
  constructor
  · constructor
    · intro h
      match scheduler with
      | none => exact absurd h (by simp [monitor_task])
      | some s =>
          refine ⟨s, rfl, ?_⟩
          by_contra hlt
          simp [monitor_task, hlt] at h
    · rintro ⟨s, rfl, hle⟩
      simp [monitor_task, hle]
  · rintro s rfl hlt
    simp [monitor_task]
    exact hlt

/-- Witness for C4 at a concrete input: a scheduler whose next_run is 10
is ticked at time 10. -/
theorem monitor_task_ticks_iff_due_witness :
    monitor_task (some ⟨10⟩) 10 = true :=
  ((monitor_task_ticks_iff_due (some ⟨10⟩) 10).1).mpr ⟨⟨10⟩, rfl, by decide⟩

/-! ### Claim C5: the task lifecycle state machine

The state machine and its enforcement live in states.py and task.py,
neither of which is in the sources; both are modelled from the spec
(sections 4.2, 4.6 and 7). -/

/-- Modelled from the spec: the legal transitions of the task lifecycle
state machine of section 4.6 (states.py is absent from the sources):
PENDING to RECEIVED or REVOKED, RECEIVED to STARTED or REVOKED, STARTED to
SUCCESS, FAILURE, RETRY or REVOKED, RETRY to RECEIVED; SUCCESS, FAILURE
and REVOKED are terminal. -/
def legal_transition (a b : Status) : Bool :=
  match a, b with
  | .PENDING, .RECEIVED => true
  | .PENDING, .REVOKED => true
  | .RECEIVED, .STARTED => true
  | .RECEIVED, .REVOKED => true
  | .STARTED, .SUCCESS => true
  | .STARTED, .FAILURE => true
  | .STARTED, .RETRY => true
  | .STARTED, .REVOKED => true
  | .RETRY, .RECEIVED => true
  | _, _ => false

/-- Modelled from the spec: the store's update operation on a record's
status (task.py is absent from the sources); any transition not listed in
the machine is an IllegalTransition error from the store, and a rejected
update leaves the record unchanged. -/
def store_update (cur next : Status) : Except String Status :=
  if legal_transition cur next then Except.ok next
  else Except.error "IllegalTransition"

/-- The statuses a single record passes through when a sequence of
requested updates hits the store: each accepted update changes the status
and is observed, each rejected one raises IllegalTransition (logged, spec
section 7) and leaves the status unchanged. -/
def observed_statuses : Status → List Status → List Status
  | _, [] => []
  | cur, r :: rs =>
    match store_update cur r with
    | Except.ok s => s :: observed_statuses s rs
    | Except.error _ => observed_statuses cur rs

/-- Claim C5: for every task observed across its lifetime, the sequence of
its status values is a legal path through the state machine of spec
section 4.6: whatever updates are requested, every consecutive pair of
observed statuses (starting from the initial one) is a legal transition,
and the store never performs a transition outside the relation. -/
theorem lifecycle_monotonic (init : Status) (reqs : List Status) :
    List.Chain (fun a b => legal_transition a b = true) init
      (observed_statuses init reqs) ∧
    (∀ a b : Status, legal_transition a b = false →
      store_update a b = Except.error "IllegalTransition") := by
  constructor
  · induction reqs generalizing init with
    | nil => exact List.Chain.nil
    | cons r rs ih =>
      show List.Chain _ init (observed_statuses init (r :: rs))
      unfold observed_statuses store_update
      by_cases h : legal_transition init r = true
      · rw [if_pos h]
        exact List.Chain.cons h (ih r)
      · rw [if_neg h]
        exact ih init
  · intro a b h
    unfold store_update
    rw [h]
    rfl

/-! ### Claim C6: the wait_for_task command

The command handler is

    def wait_for_task(client, actor, id, timeout=3600):
        scheduler = actor.app.scheduler
        return scheduler.task_class.wait_for_task(scheduler, id, timeout)

The task class's wait_for_task (task.py, absent from the sources) is
modelled from the spec.  The record a store lookup would return is given
as a trace over cooperative wait rounds: `trace i id` is the record for
`id` visible at round `i`. -/

/-- Helper: a successful findSome? points at a list element on which the
function succeeds. -/
theorem exists_of_findSome_eq_some {α β : Type} (f : α → Option β) :
    ∀ (l : List α) (b : β), l.findSome? f = some b → ∃ a ∈ l, f a = some b := by
  intro l
  induction l with
  | nil => intro b h; exact absurd h (by simp)
  | cons x xs ih =>
    intro b h
    rw [List.findSome?_cons] at h
    match hx : f x with
    | some c =>
        rw [hx] at h
        exact ⟨x, List.mem_cons_self x xs, hx.trans h⟩
    | none =>
        rw [hx] at h
        obtain ⟨a, ha, hfa⟩ := ih b h
        exact ⟨a, List.mem_cons_of_mem x ha, hfa⟩

/-- Modelled from the spec: wait_for_terminal(id, timeout), the task
class's wait_for_task (task.py is absent from the sources): it blocks
cooperatively until the record for `id` reaches SUCCESS, FAILURE or
REVOKED, returning that record, or fails with Timeout once the timeout
elapses (one wait round per second, rounds 0 through timeout). -/
def wait_for_terminal (trace : Nat → Nat → Option Task) (id : Nat)
    (timeout : Nat) : Except String Task :=
  match (List.range (timeout + 1)).findSome? (fun i =>
      (trace i id).bind (fun t =>
        if t.status ∈ READY_STATES then some t else none)) with
  | some t => Except.ok t
  | none => Except.error "Timeout"

/-- The wait_for_task command handler: the timeout argument defaults to
3600 seconds; the handler returns the task class's wait_for_task for the
given id and timeout. -/
def wait_for_task (trace : Nat → Nat → Option Task) (id : Nat)
    (timeout : Option Nat) : Except String Task :=
  wait_for_terminal trace id (timeout.getD 3600)

/-- Claim C6: the wait_for_task command takes a task id and a timeout
defaulting to 3600 seconds and returns the task class's wait_for_task for
that id and timeout: the record once terminal (its status in READY_STATES),
or a Timeout failure when the timeout elapses first. -/
theorem wait_for_task_default_and_terminal (trace : Nat → Nat → Option Task)
    (id : Nat) (timeout : Option Nat) :
    wait_for_task trace id none = wait_for_terminal trace id 3600 ∧
    wait_for_task trace id timeout
      = wait_for_terminal trace id (timeout.getD 3600) ∧
    (∀ t : Task, wait_for_task trace id timeout = Except.ok t →
      t.status ∈ READY_STATES) ∧
    (∀ e : String, wait_for_task trace id timeout = Except.error e →
      e = "Timeout") := by
  refine ⟨rfl, rfl, ?_, ?_⟩
  · intro t h
    unfold wait_for_task wait_for_terminal at h
    match hfs : (List.range (timeout.getD 3600 + 1)).findSome? (fun i =>
        (trace i id).bind (fun t =>
          if t.status ∈ READY_STATES then some t else none)) with
    | some u =>
        rw [hfs] at h
        obtain ⟨i, _, hfa⟩ := exists_of_findSome_eq_some _ _ u hfs
        match htr : trace i id with
        | none => rw [htr] at hfa; simp at hfa
        | some v =>
            rw [htr] at hfa
            simp only [Option.some_bind] at hfa
            by_cases hv : v.status ∈ READY_STATES
            · rw [if_pos hv] at hfa
              have h2 : Except.ok u = Except.ok t := h
              have htu : u = t := by
                cases h2
                rfl
              have hvu : v = u := Option.some.inj hfa
              rw [← htu, ← hvu]
              exact hv
            · rw [if_neg hv] at hfa
              exact absurd hfa (by simp)
    | none =>
        rw [hfs] at h
        exact absurd h (by simp)
  · intro e h
    unfold wait_for_task wait_for_terminal at h
    match hfs : (List.range (timeout.getD 3600 + 1)).findSome? (fun i =>
        (trace i id).bind (fun t =>
          if t.status ∈ READY_STATES then some t else none)) with
    | some u => rw [hfs] at h; exact absurd h (by simp)
    | none =>
        rw [hfs] at h
        cases h
        rfl

/-- Witness for C6 at a concrete input: with a store whose record for id 1
is already SUCCESS and an explicit timeout of 0, the returned record's
status is terminal. -/
theorem wait_for_task_default_and_terminal_witness :
    Task.status ⟨1, .SUCCESS⟩ ∈ READY_STATES :=
  ((wait_for_task_default_and_terminal (fun _ _ => some ⟨1, .SUCCESS⟩) 1
      (some 0)).2.2.1) ⟨1, .SUCCESS⟩ (by rfl)

/-! ### Claim C8: default configuration -/

/-- TaskQueueFactory.default: the string "pulsar.apps.tasks.Queue". -/
def TaskQueueFactory_default : String := "pulsar.apps.tasks.Queue"

/-- TaskPath.default: the single built-in path. -/
def tasks_path_default : List String := ["pulsar.apps.tasks.testing"]

/-- TaskQueue.cfg entry "timeout" (given as the string "3600" in the
source; the setting machinery parses it as seconds). -/
def TaskQueue_cfg_timeout : String := "3600"

/-- TaskQueue.cfg entry "backlog". -/
def TaskQueue_cfg_backlog : Nat := 1

/-- The constructors a task_queue_factory identifier can resolve to; the
claims only need the one the default names. -/
inductive QueueConstructor where
  | pythonQueue
  deriving DecidableEq, Repr

/-- Modelled from the spec: module_attribute (pulsar.utils.importer, absent
from the sources) resolves a dotted identifier to the named attribute; the
default identifier "pulsar.apps.tasks.Queue" resolves to the in-process
FIFO queue constructor. -/
def module_attribute (ident : String) : Option QueueConstructor :=
  if ident = "pulsar.apps.tasks.Queue" then some QueueConstructor.pythonQueue
  else none

/-- TaskQueueFactory.get: module_attribute applied to the setting's value,
here the default. -/
def TaskQueueFactory_get : Option QueueConstructor :=
  module_attribute TaskQueueFactory_default

/-- Modelled from the spec: the setting machinery (pulsar core, absent from
the sources) validates the "timeout" entry by reading the string as a
decimal number of seconds. -/
def parse_seconds (s : String) : Option Nat :=
  s.data.foldl (fun acc c =>
    acc.bind (fun n =>
      if c.isDigit then some (10 * n + (c.toNat - 48)) else none))
    (some 0)

/-- Claim C8: the TaskQueue application's default configuration is backlog
1, task timeout 3600 seconds, tasks_path the single built-in path
pulsar.apps.tasks.testing, and task_queue_factory the identifier
pulsar.apps.tasks.Queue resolved to a queue constructor. -/
theorem default_configuration :
    TaskQueue_cfg_backlog = 1 ∧
    parse_seconds TaskQueue_cfg_timeout = some 3600 ∧
    tasks_path_default = ["pulsar.apps.tasks.testing"] ∧
    TaskQueueFactory_default = "pulsar.apps.tasks.Queue" ∧
    TaskQueueFactory_get = some QueueConstructor.pythonQueue :=
  ⟨rfl, by decide, rfl, rfl, by decide⟩

end Pulsar
